import Mathlib

/-!
Shallow embedding of the Virtual-Relay order/relay engine
(`src/orders.py`, `src/relay_logic.py`, `src/app.py`).

Conventions of the embedding:
* Python non-negative integers are `Nat`; the one signed quantity the code
  compares against `0` (`units_ordered` in an order-line request) is `Int`.
* `math.ceil(a / b)` on non-negative integers with `b > 0` is embedded as
  exact natural ceiling division `(a + b - 1) / b` (`py_ceil_div` below).
* Python strings are `String`; Python truthiness of a string (`if s:`) is
  `s ≠ ""`; `str.strip()` is `py_strip` (drop leading and trailing
  whitespace characters).
* Functions that print-and-return sentinel values are embedded as functions
  returning the same values; distinguishable return paths of the app layer
  are embedded as small inductive result types, each constructor mapped to
  one `return` statement of the source (noted per definition).
* Python dicts keyed by product/route number are association lists searched
  with `List.find?` on the key.
* Sources of nondeterminism that the engine merely stores (wall-clock
  timestamps, generated order ids, the random `ld_number` of a trailer)
  are passed in as parameters or omitted when no claim mentions them.
-/

namespace VRelay

/-- Embedding of `math.ceil(a / b)` for non-negative integer `a` and
positive integer `b`, as used throughout `orders.py`. -/
def py_ceil_div (a b : Nat) : Nat := (a + b - 1) / b

/-- `orders.py` `Product` dataclass (lines 9-16). -/
structure Product where
  name : String
  product_number : Nat
  stack_height : Nat
  tray_type : String
  units_per_tray : Nat
  origin_plant : Nat
deriving DecidableEq, Repr

/-- `orders.py` `Route` dataclass (lines 19-22). -/
structure Route where
  route_id : Nat
  location : String
deriving DecidableEq, Repr

/-- `orders.py` `OrderItem` dataclass (lines 25-34). -/
structure OrderItem where
  product_number : Nat
  product_name : String
  units_ordered : Nat
  units_per_tray : Nat
  trays_needed : Nat
  stack_height : Nat
  stacks_needed : Nat
  tray_type : String
deriving DecidableEq, Repr

/-- `orders.py` `Order` dataclass (lines 37-45). -/
structure Order where
  order_id : String
  route_id : Nat
  location : String
  order_date : String
  items : List OrderItem
  total_trays : Nat
  total_stacks : Nat
deriving DecidableEq, Repr

/-- The mutable state of `orders.py` `OrderSystem`: the product catalog
(dict keyed by `product_number`), the route catalog (dict keyed by
`route_id`) and the accumulated orders (dict keyed by `order_id`;
embedded as the list of stored orders in insertion order). -/
structure OrderSystem where
  products : List Product
  routes : List Route
  orders : List Order
deriving DecidableEq, Repr

/-- Catalog lookup `self.products[product_number]` / the membership test
`product_number in self.products`. -/
def find_product (sys : OrderSystem) (product_number : Nat) : Option Product :=
  sys.products.find? (fun p => p.product_number == product_number)

/-- Route lookup `self.routes[route_id]` / `route_id in self.routes`. -/
def find_route (sys : OrderSystem) (route_id : Nat) : Option Route :=
  sys.routes.find? (fun r => r.route_id == route_id)

/-- `relay_logic.py` `Trailer` (lines 14-24).  The random `ld_number` and
the `order_info` payload are omitted: no claim mentions them and the
former is drawn from `random.randint`.  The source field `stacks` is
named `stack_load` here (`stacks` is a reserved token in this Lean
environment); all other field names match the source. -/
structure Trailer where
  number : Nat
  stack_load : Nat
  trailer_number : String := ""
  seal_number : String := ""
  dispatched : Bool := false
  dispatch_timestamp : Option String := none
deriving DecidableEq, Repr

/-- The `while stacks_remaining > 0` loop of
`relay_logic.py` `Location.assign_trailers` (lines 39-46): emit a trailer
of `min(stacks_remaining, 98)` stacks, numbered from `trailer_number`
upwards, until nothing remains. -/
def assign_trailers_loop (stacks_remaining trailer_number : Nat) : List Trailer :=
  if h : 0 < stacks_remaining then
    let count := min stacks_remaining 98
    { number := trailer_number, stack_load := count } ::
      assign_trailers_loop (stacks_remaining - count) (trailer_number + 1)
  else []
termination_by stacks_remaining
decreasing_by
  simp_wf
  omega

/-- `Location.assign_trailers` as called on a location whose
`total_stacks` is `totalStacks`: the loop starts with
`stacks_remaining = self.total_stacks` and `trailer_number = 1`. -/
def assign_trailers (totalStacks : Nat) : List Trailer :=
  assign_trailers_loop totalStacks 1

theorem assign_trailers_loop_zero (k : Nat) : assign_trailers_loop 0 k = [] := by
  conv_lhs => unfold assign_trailers_loop
  simp

theorem assign_trailers_loop_pos (n k : Nat) (h : 0 < n) :
    assign_trailers_loop n k =
      { number := k, stack_load := min n 98 } ::
        assign_trailers_loop (n - min n 98) (k + 1) := by
  conv_lhs => unfold assign_trailers_loop
  simp [h]

/-- Combined invariant of the allocation loop, proved by strong induction
on the remaining stack count: the loop emits `⌈n/98⌉` trailers, their
stack counts are in `(0, 98]` and sum to `n`, and their numbers are
consecutive starting at `k`. -/
theorem assign_trailers_loop_spec (n : Nat) : ∀ k : Nat,
    (assign_trailers_loop n k).length = py_ceil_div n 98 ∧
    ((assign_trailers_loop n k).map Trailer.stack_load).sum = n ∧
    (∀ t ∈ assign_trailers_loop n k, 0 < t.stack_load ∧ t.stack_load ≤ 98) ∧
    (assign_trailers_loop n k).map Trailer.number =
      List.range' k (assign_trailers_loop n k).length := by
  induction n using Nat.strong_induction_on with
  | _ n ih =>
    intro k
    by_cases h : 0 < n
    · have hlt : n - min n 98 < n := by omega
      obtain ⟨ihlen, ihsum, ihmem, ihnum⟩ := ih (n - min n 98) hlt (k + 1)
      rw [assign_trailers_loop_pos n k h]
      refine ⟨?_, ?_, ?_, ?_⟩
      · simp only [List.length_cons, ihlen, py_ceil_div]
        omega
      · simp only [List.map_cons, List.sum_cons, ihsum]
        omega
      · intro t ht
        rcases List.mem_cons.mp ht with h1 | h2
        · subst h1
          constructor
          · simp only
            omega
          · simp only
            omega
        · exact ihmem t h2
      · simp only [List.map_cons, List.length_cons, ihnum, ihlen, List.range'_succ]
    · have hn : n = 0 := by omega
      subst hn
      rw [assign_trailers_loop_zero]
      simp [py_ceil_div]

/-- Bridging lemma: `py_ceil_div a b ≤ c` iff `a ≤ b * c`, for `b > 0`
(the Galois characterisation of ceiling division). -/
theorem py_ceil_div_le_iff (a b c : Nat) (hb : 0 < b) :
    py_ceil_div a b ≤ c ↔ a ≤ b * c := by
  unfold py_ceil_div
  rw [Nat.div_le_iff_le_mul_add_pred hb]
  omega

/-- `py_ceil_div` is the exact rational ceiling `⌈a / b⌉` for `b > 0`. -/
theorem py_ceil_div_eq_ceil (a b : Nat) (hb : 0 < b) :
    py_ceil_div a b = ⌈(a : ℚ) / (b : ℚ)⌉₊ := by
  have hbq : (0 : ℚ) < (b : ℚ) := by exact_mod_cast hb
  refine le_antisymm ?_ ?_
  · rw [py_ceil_div_le_iff a b _ hb]
    have h := Nat.le_ceil ((a : ℚ) / (b : ℚ))
    rw [div_le_iff₀ hbq] at h
    have h2 : (a : ℚ) ≤ (b : ℚ) * (⌈(a : ℚ) / (b : ℚ)⌉₊ : ℚ) := by
      calc (a : ℚ) ≤ (⌈(a : ℚ) / (b : ℚ)⌉₊ : ℚ) * (b : ℚ) := h
        _ = (b : ℚ) * (⌈(a : ℚ) / (b : ℚ)⌉₊ : ℚ) := by ring
    exact_mod_cast h2
  · rw [Nat.ceil_le, div_le_iff₀ hbq]
    have h := (py_ceil_div_le_iff a b (py_ceil_div a b) hb).mp le_rfl
    have h2 : (a : ℚ) ≤ (b : ℚ) * (py_ceil_div a b : ℚ) := by exact_mod_cast h
    calc (a : ℚ) ≤ (b : ℚ) * (py_ceil_div a b : ℚ) := h2
      _ = (py_ceil_div a b : ℚ) * (b : ℚ) := by ring

/-- C1: for every `totalStacks ≥ 0`, `Location.assign_trailers` produces
exactly `⌈totalStacks/98⌉` trailers (zero trailers when `totalStacks = 0`),
every produced trailer carries between 1 and 98 stacks, the trailer stack
counts sum to `totalStacks` exactly, and the trailers are numbered
sequentially 1, 2, 3, ... in output order. -/
theorem C1_assign_trailers (totalStacks : Nat) :
    (assign_trailers totalStacks).length = ⌈(totalStacks : ℚ) / (98 : ℚ)⌉₊ ∧
    assign_trailers 0 = [] ∧
    (∀ t ∈ assign_trailers totalStacks, 0 < t.stack_load ∧ t.stack_load ≤ 98) ∧
    ((assign_trailers totalStacks).map Trailer.stack_load).sum = totalStacks ∧
    (assign_trailers totalStacks).map Trailer.number =
      List.range' 1 (assign_trailers totalStacks).length := by
  obtain ⟨hlen, hsum, hmem, hnum⟩ := assign_trailers_loop_spec totalStacks 1
  simp only [assign_trailers]
  refine ⟨?_, ?_, hmem, hsum, hnum⟩
  · rw [hlen, py_ceil_div_eq_ceil _ _ (by norm_num)]
    norm_cast
  · exact assign_trailers_loop_zero 1

/-- `orders.py` `OrderSystem.calculate_order_quantities` (lines 171-187):
`(0, 0)` when the product id is not in the catalog, otherwise the ceiling
divisions units→trays (by `units_per_tray`) and trays→stacks (by
`stack_height`). -/
def calculate_order_quantities (sys : OrderSystem) (product_number units_ordered : Nat) :
    Nat × Nat :=
  match find_product sys product_number with
  | none => (0, 0)
  | some product =>
    let trays_needed := py_ceil_div units_ordered product.units_per_tray
    let stacks_needed := py_ceil_div trays_needed product.stack_height
    (trays_needed, stacks_needed)

/-- C2: for every product present in the catalog with positive
`units_per_tray` and `stack_height` and every `units_ordered ≥ 0`,
`calculate_order_quantities` returns
`trays_needed = ⌈units_ordered / units_per_tray⌉` and
`stacks_needed = ⌈trays_needed / stack_height⌉`
(the particular instance `units_per_tray = 12`, `stack_height = 17`,
`units_ordered = 200` giving `(17, 1)` is checked in the witness). -/
theorem C2_calculate_order_quantities (sys : OrderSystem) (pn units : Nat) (p : Product)
    (hp : find_product sys pn = some p)
    (hupt : 0 < p.units_per_tray) (hsh : 0 < p.stack_height) :
    calculate_order_quantities sys pn units =
      (⌈(units : ℚ) / (p.units_per_tray : ℚ)⌉₊,
       ⌈((⌈(units : ℚ) / (p.units_per_tray : ℚ)⌉₊ : Nat) : ℚ) / (p.stack_height : ℚ)⌉₊) := by
  unfold calculate_order_quantities
  rw [hp]
  simp only
  rw [py_ceil_div_eq_ceil units _ hupt, py_ceil_div_eq_ceil _ _ hsh]

/-- The catalog and state used by the C2 witness: the single product
number 101 with 12 units per tray and stack height 17. -/
def c2_product : Product :=
  { name := "White Bread", product_number := 101, stack_height := 17,
    tray_type := "bread", units_per_tray := 12, origin_plant := 1 }

def c2_sys : OrderSystem := { products := [c2_product], routes := [], orders := [] }

/-- C2 witness: the concrete scenario of the claim,
`units_per_tray = 12`, `stack_height = 17`, `units_ordered = 200`
yields `(trays_needed, stacks_needed) = (17, 1)`. -/
theorem C2_witness : calculate_order_quantities c2_sys 101 200 = (17, 1) := by
  have h := C2_calculate_order_quantities c2_sys 101 200 c2_product rfl
    (by decide) (by decide)
  rw [h]
  rw [show c2_product.units_per_tray = 12 from rfl, show c2_product.stack_height = 17 from rfl]
  rw [← py_ceil_div_eq_ceil 200 12 (by norm_num)]
  rw [show py_ceil_div 200 12 = 17 from rfl]
  rw [← py_ceil_div_eq_ceil 17 17 (by norm_num)]
  rfl

/-- One element of the `order_items` argument of `create_order`: a dict
with keys `product_number` and `units_ordered` (`orders.py` lines
212-214; `units_ordered` defaults to 0 and is compared against 0, so it
is embedded as `Int`). -/
structure ItemRequest where
  product_number : Nat
  units_ordered : Int
deriving DecidableEq, Repr

/-- The body of the `for item in order_items` loop of
`OrderSystem.create_order` (`orders.py` lines 212-248): `none` when the
line is skipped by `continue` (unknown product, line 216-218, or
non-positive units, line 221-223); otherwise the `OrderItem` snapshot
appended to `processed_items` (lines 235-246).  The source computes
trays/stacks once before the multiple-of-`units_per_tray` check and
recomputes them after adjusting (lines 226-233); the stored values are
those of the final computation, which is what each branch builds here. -/
def process_item (sys : OrderSystem) (item : ItemRequest) : Option OrderItem :=
  match find_product sys item.product_number with
  | none => none
  | some product =>
    if item.units_ordered ≤ 0 then none
    else
      let units0 := item.units_ordered.toNat
      if units0 % product.units_per_tray ≠ 0 then
        let units1 := py_ceil_div units0 product.units_per_tray * product.units_per_tray
        let tq := calculate_order_quantities sys item.product_number units1
        some { product_number := item.product_number, product_name := product.name,
               units_ordered := units1, units_per_tray := product.units_per_tray,
               trays_needed := tq.1, stack_height := product.stack_height,
               stacks_needed := tq.2, tray_type := product.tray_type }
      else
        let tq := calculate_order_quantities sys item.product_number units0
        some { product_number := item.product_number, product_name := product.name,
               units_ordered := units0, units_per_tray := product.units_per_tray,
               trays_needed := tq.1, stack_height := product.stack_height,
               stacks_needed := tq.2, tray_type := product.tray_type }

/-- `OrderSystem.create_order` (`orders.py` lines 189-285).  The generated
`order_id` (built from the wall clock and the optional day number, lines
201-205) and the formatted date string (lines 254-272, also wall clock
and day number) are passed in as parameters; `create_order` performs no
validation of the day number itself.  Returns the optionally created
order with the updated system state: `self.orders` gains the order
exactly when one is returned (line 284). -/
def create_order (sys : OrderSystem) (route_id : Nat) (order_items : List ItemRequest)
    (order_id : String) (formatted_date : String) : Option Order × OrderSystem :=
  match find_route sys route_id with
  | none => (none, sys)
  | some route =>
    let processed_items := order_items.filterMap (process_item sys)
    if processed_items.isEmpty then (none, sys)
    else
      let order : Order := {
        order_id := order_id,
        route_id := route_id,
        location := route.location,
        order_date := formatted_date,
        items := processed_items,
        total_trays := (processed_items.map OrderItem.trays_needed).sum,
        total_stacks := (processed_items.map OrderItem.stacks_needed).sum }
      (some order, { sys with orders := sys.orders ++ [order] })

theorem py_ceil_div_mul (m b : Nat) (hb : 0 < b) : py_ceil_div (m * b) b = m := by
  unfold py_ceil_div
  have h1 : m * b + b - 1 = b * m + (b - 1) := by
    have := Nat.mul_comm m b
    omega
  rw [h1, Nat.mul_add_div hb, Nat.div_eq_of_lt (by omega)]
  omega

theorem py_ceil_div_lower (a b : Nat) (hb : 0 < b) : a ≤ py_ceil_div a b * b := by
  have h := (py_ceil_div_le_iff a b (py_ceil_div a b) hb).mp le_rfl
  calc a ≤ b * py_ceil_div a b := h
    _ = py_ceil_div a b * b := Nat.mul_comm _ _

theorem py_ceil_div_upper (a b : Nat) : py_ceil_div a b * b ≤ a + b - 1 := by
  unfold py_ceil_div
  exact Nat.div_mul_le_self (a + b - 1) b

theorem py_ceil_div_of_dvd (a b : Nat) (hb : 0 < b) (h : a % b = 0) :
    py_ceil_div a b = a / b := by
  have hd : a / b * b = a := Nat.div_mul_cancel (Nat.dvd_of_mod_eq_zero h)
  calc py_ceil_div a b = py_ceil_div (a / b * b) b := by rw [hd]
    _ = a / b := py_ceil_div_mul (a / b) b hb

/-- C4: during order creation, a line whose `units_ordered` is not an
exact multiple of the product's `units_per_tray` is rounded up to the
next multiple (never truncated down), so the stored `OrderItem` always
satisfies `units_ordered % units_per_tray = 0`, carries
`units_ordered` within `[requested, requested + units_per_tray)`, equal
to `trays_needed * units_per_tray`, with
`trays_needed = ⌈requested / units_per_tray⌉` computed from the
originally requested units. -/
theorem C4_units_normalized (sys : OrderSystem) (item : ItemRequest) (p : Product)
    (hp : find_product sys item.product_number = some p)
    (hupt : 0 < p.units_per_tray) (hu : 0 < item.units_ordered) :
    ∃ oi : OrderItem, process_item sys item = some oi ∧
      oi.units_per_tray = p.units_per_tray ∧
      oi.units_ordered % p.units_per_tray = 0 ∧
      item.units_ordered.toNat ≤ oi.units_ordered ∧
      oi.units_ordered < item.units_ordered.toNat + p.units_per_tray ∧
      oi.trays_needed = ⌈(item.units_ordered.toNat : ℚ) / (p.units_per_tray : ℚ)⌉₊ ∧
      oi.units_ordered = oi.trays_needed * p.units_per_tray := by
  have hu' : ¬ item.units_ordered ≤ 0 := by omega
  unfold process_item
  rw [hp]
  simp only [hu', if_false]
  set u := item.units_ordered.toNat with hudef
  by_cases hmod : u % p.units_per_tray ≠ 0
  · rw [if_pos hmod]
    refine ⟨_, rfl, rfl, ?_, ?_, ?_, ?_, ?_⟩
    · simp only
      exact Nat.mul_mod_left _ _
    · simp only
      exact py_ceil_div_lower u p.units_per_tray hupt
    · simp only
      have := py_ceil_div_upper u p.units_per_tray
      omega
    · simp only [calculate_order_quantities]
      rw [hp]
      simp only
      rw [py_ceil_div_mul _ _ hupt, py_ceil_div_eq_ceil _ _ hupt]
    · simp only [calculate_order_quantities]
      rw [hp]
      simp only
      rw [py_ceil_div_mul _ _ hupt]
  · rw [if_neg hmod]
    push_neg at hmod
    refine ⟨_, rfl, rfl, ?_, ?_, ?_, ?_, ?_⟩
    · simpa using hmod
    · simp
    · simp only
      omega
    · simp only [calculate_order_quantities]
      rw [hp]
      simp only
      rw [py_ceil_div_eq_ceil _ _ hupt]
    · simp only [calculate_order_quantities]
      rw [hp]
      simp only
      rw [py_ceil_div_of_dvd _ _ hupt hmod]
      exact (Nat.div_mul_cancel (Nat.dvd_of_mod_eq_zero hmod)).symm

/-- C4 witness: the concrete scenario of the claim, `units_ordered = 101`
with `units_per_tray = 12` is normalized up to 108 units and 9 trays. -/
theorem C4_witness :
    ∃ oi : OrderItem, process_item c2_sys { product_number := 101, units_ordered := 101 } = some oi ∧
      oi.units_ordered = 108 ∧ oi.trays_needed = 9 ∧ oi.units_ordered % oi.units_per_tray = 0 := by
  obtain ⟨oi, hoi, hupt, hmod, hlo, hhi, htrays, hmulti⟩ :=
    C4_units_normalized c2_sys { product_number := 101, units_ordered := 101 } c2_product
      rfl (by decide) (by decide)
  refine ⟨oi, hoi, ?_, ?_, ?_⟩
  · rw [hmulti, htrays]
    rw [show (101 : Int).toNat = (101 : Nat) from rfl]
    rw [show c2_product.units_per_tray = 12 from rfl]
    rw [← py_ceil_div_eq_ceil 101 12 (by norm_num)]
    rfl
  · rw [htrays]
    rw [show (101 : Int).toNat = (101 : Nat) from rfl]
    rw [show c2_product.units_per_tray = 12 from rfl]
    rw [← py_ceil_div_eq_ceil 101 12 (by norm_num)]
    rfl
  · rw [hupt, hmod]

/-- C5: if every requested line of an order is skipped during processing
(invalid or unknown), order creation fails: no `Order` value is produced
and the stored order collection is left exactly as it was. -/
theorem C5_empty_order (sys : OrderSystem) (route_id : Nat) (order_items : List ItemRequest)
    (order_id formatted_date : String)
    (h : ∀ req ∈ order_items, process_item sys req = none) :
    create_order sys route_id order_items order_id formatted_date = (none, sys) := by
  unfold create_order
  cases hr : find_route sys route_id with
  | none => rfl
  | some route =>
    have hempty : order_items.filterMap (process_item sys) = [] :=
      List.filterMap_eq_nil.mpr h
    simp [hempty]

/-- C10: for a `route_id` absent from the route catalog, `create_order`
returns no `Order` and leaves the stored order collection unchanged
(`orders.py` lines 196-198 return before anything is touched). -/
theorem C10_unknown_route (sys : OrderSystem) (route_id : Nat) (order_items : List ItemRequest)
    (order_id formatted_date : String)
    (h : find_route sys route_id = none) :
    create_order sys route_id order_items order_id formatted_date = (none, sys) := by
  unfold create_order
  rw [h]

/-- System used by the C5 and C10 witnesses: one product, one route,
one stored order. -/
def c5_order : Order :=
  { order_id := "ORD_PRIOR", route_id := 6278, location := "Anderson",
    order_date := "2024-12-25 08:00:00",
    items := [{ product_number := 101, product_name := "White Bread",
                units_ordered := 12, units_per_tray := 12, trays_needed := 1,
                stack_height := 17, stacks_needed := 1, tray_type := "bread" }],
    total_trays := 1, total_stacks := 1 }

def c5_sys : OrderSystem :=
  { products := [c2_product], routes := [{ route_id := 6278, location := "Anderson" }],
    orders := [c5_order] }

/-- C5 witness: on a valid route, an order whose two requested lines are
both skipped (product 999 is unknown; product 101 has 0 units) produces
no order and leaves the stored collection untouched. -/
theorem C5_witness :
    create_order c5_sys 6278
      [{ product_number := 999, units_ordered := 24 },
       { product_number := 101, units_ordered := 0 }]
      "ORD_NEW" "2024-12-26 08:00:00" = (none, c5_sys) := by
  apply C5_empty_order
  intro req hreq
  rcases List.mem_cons.mp hreq with h1 | h2
  · subst h1
    rfl
  · rcases List.mem_cons.mp h2 with h3 | h4
    · subst h3
      rfl
    · exact absurd h4 (List.not_mem_nil _)

/-- C10 witness: route 9999 is not in the catalog; order creation
returns no order and the one stored order stays as it was. -/
theorem C10_witness :
    create_order c5_sys 9999 [{ product_number := 101, units_ordered := 24 }]
      "ORD_NEW2" "2024-12-26 09:00:00" = (none, c5_sys) := by
  apply C10_unknown_route
  rfl

/-- The per-location aggregation of `relay_logic.py` `Location.from_orders`
(lines 52-58): the nested `for order in orders: for item in order.items:`
loop sums `item.stacks_needed` over every line of every order. -/
def from_orders_total_stacks (orders : List Order) : Nat :=
  (orders.map (fun o => (o.items.map OrderItem.stacks_needed).sum)).sum

/-- The per-location aggregation of `app.py`
`create_relay_from_orders_data` (lines 633-639): the loop sums the stored
`order_data['total_stacks']` over the location's orders. -/
def relay_data_total_stacks (orders : List Order) : Nat :=
  (orders.map Order.total_stacks).sum

theorem create_order_totals (sys : OrderSystem) (route_id : Nat)
    (order_items : List ItemRequest) (order_id formatted_date : String)
    (o : Order) (sys' : OrderSystem)
    (h : create_order sys route_id order_items order_id formatted_date = (some o, sys')) :
    o.total_stacks = (o.items.map OrderItem.stacks_needed).sum ∧
    o.total_trays = (o.items.map OrderItem.trays_needed).sum := by
  unfold create_order at h
  split at h
  · simp at h
  · simp only at h
    split at h
    · simp at h
    · have h1 := congrArg Prod.fst h
      simp only at h1
      injection h1 with h1
      subst h1
      exact ⟨rfl, rfl⟩

/-- C6: for every location of a grouped relay whose orders were produced
by `create_order`, the location total computed by
`Location.from_orders` (summing `stacks_needed` over every line of every
order) agrees with the total computed by `create_relay_from_orders_data`
(summing the stored `total_stacks` of each order). -/
theorem C6_aggregation_sites_agree (orders : List Order)
    (h : ∀ o ∈ orders, ∃ sys route_id order_items order_id formatted_date sys',
      create_order sys route_id order_items order_id formatted_date = (some o, sys')) :
    from_orders_total_stacks orders = relay_data_total_stacks orders := by
  induction orders with
  | nil => rfl
  | cons o rest ih =>
    have hrest := ih (fun o' ho' => h o' (List.mem_cons_of_mem o ho'))
    obtain ⟨sys, rid, items, oid, date, sys', hco⟩ := h o (List.mem_cons_self o rest)
    obtain ⟨hst, _⟩ := create_order_totals sys rid items oid date o sys' hco
    unfold from_orders_total_stacks relay_data_total_stacks at hrest ⊢
    simp only [List.map_cons, List.sum_cons, hrest, hst]

/-- C6 witness: a concrete location holding the single order created by
`create_order` on `c5_sys` (24 units of product 101: 2 trays, 1 stack). -/
def c6_order : Order :=
  { order_id := "ORD_C6", route_id := 6278, location := "Anderson",
    order_date := "2024-12-27 08:00:00",
    items := [{ product_number := 101, product_name := "White Bread",
                units_ordered := 24, units_per_tray := 12, trays_needed := 2,
                stack_height := 17, stacks_needed := 1, tray_type := "bread" }],
    total_trays := 2, total_stacks := 1 }

theorem C6_witness :
    from_orders_total_stacks [c6_order] = relay_data_total_stacks [c6_order] := by
  apply C6_aggregation_sites_agree
  intro o ho
  rw [List.mem_singleton] at ho
  subst ho
  exact ⟨c5_sys, 6278, [{ product_number := 101, units_ordered := 24 }],
    "ORD_C6", "2024-12-27 08:00:00",
    { c5_sys with orders := c5_sys.orders ++ [c6_order] }, rfl⟩

/-- Embedding of Python `str.strip()`: drop leading and trailing
whitespace. -/
def py_strip (s : String) : String :=
  String.mk (((s.data.dropWhile Char.isWhitespace).reverse.dropWhile
    Char.isWhitespace).reverse)

/-- Distinguishable outcomes of a trailer edit.  `alreadyDispatched` is
the rejection return of `app.py` line 855 (and line 976 in
`update_trailer_from_button`); `updated` is the success return of line
864 (985). -/
inductive EditResult where
  | alreadyDispatched
  | updated
deriving DecidableEq, Repr

/-- Per-trailer core of `app.py` `edit_trailer_info_by_id` (lines
853-864) and `update_trailer_from_button` (lines 975-985), once the
identifier lookup has located the trailer: a dispatched trailer is
rejected and left untouched; otherwise BOTH fields are assigned — a
truthy (non-empty) argument is stored stripped, a falsy (empty) argument
stores the empty string (`seal_number.strip() if seal_number else ""`,
lines 860-861 / 981-982). -/
def edit_trailer (t : Trailer) (seal_number trailer_number : String) :
    EditResult × Trailer :=
  if t.dispatched then (EditResult.alreadyDispatched, t)
  else
    (EditResult.updated,
      { t with
        seal_number := if seal_number ≠ "" then py_strip seal_number else "",
        trailer_number := if trailer_number ≠ "" then py_strip trailer_number else "" })

/-- Distinguishable outcomes of a dispatch request. `cancelled` is the
unconfirmed-request return of `app.py` line 881 (1001);
`alreadyDispatched` is the rejection of line 903 (1012); `dispatched` is
the success return of line 910 (1019). -/
inductive DispatchResult where
  | cancelled
  | alreadyDispatched
  | dispatched
deriving DecidableEq, Repr

/-- `app.py` `dispatch_trailer_by_id` (lines 874-916) and
`dispatch_trailer_from_button` (lines 994-1019) as they act on the
located trailer: an unconfirmed request is cancelled before the trailer
is even looked up (lines 880-881), an already-dispatched trailer is
rejected (lines 902-903), otherwise `dispatched` is set and the
wall-clock timestamp (parameter `now`) is recorded (lines 906-907). -/
def dispatch_trailer (t : Trailer) (confirm : Bool) (now : String) :
    DispatchResult × Trailer :=
  if ¬ confirm then (DispatchResult.cancelled, t)
  else if t.dispatched then (DispatchResult.alreadyDispatched, t)
  else (DispatchResult.dispatched,
    { t with dispatched := true, dispatch_timestamp := some now })

/-- A lifecycle call as issued against one trailer: either an edit or a
dispatch request. -/
inductive LifecycleOp where
  | edit (seal_number trailer_number : String)
  | dispatch (confirm : Bool) (now : String)
deriving DecidableEq, Repr

/-- The state effect of a lifecycle call on the trailer it addresses. -/
def apply_op (t : Trailer) : LifecycleOp → Trailer
  | LifecycleOp.edit s n => (edit_trailer t s n).2
  | LifecycleOp.dispatch c now => (dispatch_trailer t c now).2

/-- Successive lifecycle calls against one trailer. -/
def apply_ops (t : Trailer) (ops : List LifecycleOp) : Trailer :=
  ops.foldl apply_op t

/-- The dispatched trailer of the C3 counterexample. -/
def c3_trailer : Trailer :=
  { number := 1, stack_load := 98, trailer_number := "T100",
    seal_number := "S1", dispatched := true,
    dispatch_timestamp := some "2024-12-25 10:00:00" }

/-- C3 counterexample: a `dispatchTrailer` call on an already-dispatched
trailer whose confirmation flag is false does NOT return the
already-dispatched error — the unconfirmed-request check of `app.py`
line 880 fires first and the call returns the cancellation result.  This
refutes the claim that every subsequent `dispatchTrailer` call on a
dispatched trailer returns an already-dispatched error (the trailer is
still left unchanged). -/
theorem C3_counterexample :
    c3_trailer.dispatched = true ∧
    dispatch_trailer c3_trailer false "2024-12-26 09:00:00" =
      (DispatchResult.cancelled, c3_trailer) ∧
    DispatchResult.cancelled ≠ DispatchResult.alreadyDispatched := by
  exact ⟨rfl, rfl, by decide⟩

/-- C3 (amended): once a trailer is dispatched, every subsequent
`editTrailer` call returns the already-dispatched error, every
subsequent `dispatchTrailer` call with `confirm = true` returns the
already-dispatched error, a `dispatchTrailer` call with
`confirm = false` returns the cancellation result, and in all cases —
including any sequence of subsequent lifecycle calls — the trailer
(in particular its `trailer_number`, `seal_number` and stack count) is
left exactly as it was. -/
theorem C3_dispatch_monotonic (t : Trailer) (h : t.dispatched = true) :
    (∀ s n, edit_trailer t s n = (EditResult.alreadyDispatched, t)) ∧
    (∀ now, dispatch_trailer t true now = (DispatchResult.alreadyDispatched, t)) ∧
    (∀ now, dispatch_trailer t false now = (DispatchResult.cancelled, t)) ∧
    (∀ ops, apply_ops t ops = t) := by
  refine ⟨?_, ?_, ?_, ?_⟩
  · intro s n
    unfold edit_trailer
    rw [if_pos h]
  · intro now
    unfold dispatch_trailer
    simp [h]
  · intro now
    unfold dispatch_trailer
    simp
  · intro ops
    induction ops with
    | nil => rfl
    | cons op rest ih =>
      have hstep : apply_op t op = t := by
        cases op with
        | edit s n =>
          simp only [apply_op]
          unfold edit_trailer
          rw [if_pos h]
        | dispatch c now =>
          simp only [apply_op]
          unfold dispatch_trailer
          cases c with
          | false => simp
          | true => simp [h]
      calc apply_ops t (op :: rest) = apply_ops (apply_op t op) rest := rfl
        _ = apply_ops t rest := by rw [hstep]
        _ = t := ih

/-- The dispatched trailer of the C3 witness. -/
def c3w_trailer : Trailer :=
  { number := 2, stack_load := 52, trailer_number := "T200",
    seal_number := "S2", dispatched := true,
    dispatch_timestamp := some "2024-12-25 11:00:00" }

/-- C3 witness: the amended claim at a concrete dispatched trailer and a
concrete sequence of subsequent lifecycle calls. -/
theorem C3_witness :
    edit_trailer c3w_trailer "S9" "T9" = (EditResult.alreadyDispatched, c3w_trailer) ∧
    dispatch_trailer c3w_trailer true "2024-12-26 10:00:00" =
      (DispatchResult.alreadyDispatched, c3w_trailer) ∧
    dispatch_trailer c3w_trailer false "2024-12-26 10:00:00" =
      (DispatchResult.cancelled, c3w_trailer) ∧
    apply_ops c3w_trailer
      [LifecycleOp.edit "A" "B", LifecycleOp.dispatch true "2024-12-26 11:00:00",
       LifecycleOp.dispatch false "2024-12-26 12:00:00"] = c3w_trailer := by
  obtain ⟨h1, h2, h3, h4⟩ := C3_dispatch_monotonic c3w_trailer rfl
  exact ⟨h1 "S9" "T9", h2 _, h3 _, h4 _⟩

/-- The active trailer of the C9 counterexample, with a previously set
seal number. -/
def c9_trailer : Trailer :=
  { number := 1, stack_load := 10, trailer_number := "T7",
    seal_number := "OLD-SEAL", dispatched := false,
    dispatch_timestamp := none }

/-- C9 counterexample: on an active (non-dispatched) trailer with seal
number "OLD-SEAL", an edit that provides only a trailer number and
passes the seal field empty does NOT preserve the previous seal — the
assignment `seal_number.strip() if seal_number else ""` (`app.py` line
860) resets it to the empty string. -/
theorem C9_counterexample :
    c9_trailer.dispatched = false ∧
    c9_trailer.seal_number = "OLD-SEAL" ∧
    (edit_trailer c9_trailer "" "T8").2.seal_number = "" ∧
    (edit_trailer c9_trailer "" "T8").2.seal_number ≠ c9_trailer.seal_number := by
  exact ⟨rfl, rfl, rfl, by decide⟩

/-- C9 (amended): on a non-dispatched trailer, `editTrailer` assigns both
editable fields unconditionally: a non-empty argument is stored stripped
of surrounding whitespace, and an empty/omitted argument resets the
field to the empty string (it is NOT left unchanged); all other trailer
fields (number, stack count, dispatch state, timestamp) are unchanged,
and the call reports success. -/
theorem C9_edit_sets_both_fields (t : Trailer) (s n : String)
    (h : t.dispatched = false) :
    (edit_trailer t s n).1 = EditResult.updated ∧
    (edit_trailer t s n).2.seal_number = (if s ≠ "" then py_strip s else "") ∧
    (edit_trailer t s n).2.trailer_number = (if n ≠ "" then py_strip n else "") ∧
    (edit_trailer t s n).2.number = t.number ∧
    (edit_trailer t s n).2.stack_load = t.stack_load ∧
    (edit_trailer t s n).2.dispatched = false ∧
    (edit_trailer t s n).2.dispatch_timestamp = t.dispatch_timestamp := by
  unfold edit_trailer
  rw [if_neg (by rw [h]; exact Bool.false_ne_true)]
  exact ⟨rfl, rfl, rfl, rfl, rfl, h, rfl⟩

/-- C9 witness: the amended claim at the concrete active trailer
`c9_trailer`, passing a non-empty seal with surrounding whitespace and an
empty trailer number. -/
theorem C9_witness :
    (edit_trailer c9_trailer " S42 " "").1 = EditResult.updated ∧
    (edit_trailer c9_trailer " S42 " "").2.seal_number = "S42" ∧
    (edit_trailer c9_trailer " S42 " "").2.trailer_number = "" ∧
    (edit_trailer c9_trailer " S42 " "").2.stack_load = 10 := by
  obtain ⟨h1, h2, h3, h4, h5, h6, h7⟩ :=
    C9_edit_sets_both_fields c9_trailer " S42 " "" rfl
  refine ⟨h1, ?_, ?_, ?_⟩
  · rw [h2, if_pos (by decide)]
    decide
  · rw [h3]
    simp
  · rw [h5]
    rfl

/-- Embedding of Python `int(s)` on a string: strip surrounding
whitespace, accept an optional sign followed by at least one digit,
otherwise fail (`ValueError`). -/
def py_to_int (s : String) : Option Int :=
  let cs := (py_strip s).data
  let signed : Int × List Char :=
    match cs with
    | '-' :: rest => (-1, rest)
    | '+' :: rest => (1, rest)
    | _ => (1, cs)
  if signed.2 ≠ [] ∧ signed.2.all Char.isDigit then
    some (signed.1 * (signed.2.foldl (fun a c => a * 10 + ((c.toNat : Int) - 48)) 0))
  else none

/-- Outcome of the validation stage of `app.py`
`create_orders_for_date_and_day` (lines 135-167).  Each error
constructor is one early `return` of the source (lines 139-140, 142-143,
149-150, 155-158 — the unparseable-day and day-not-in-set paths both
return the invalid-day message); `proceed day_num` means every check
passed and order creation (`simulate_random_orders`, line 167) starts
with the validated day number — so a rejection happens before any
quantity computation. -/
inductive OrderRequestCheck where
  | emptyDate
  | emptyDay
  | badDateFormat
  | invalidDayTag
  | proceed (day_num : Int)
deriving DecidableEq, Repr

/-- The validation stage of `app.py` `create_orders_for_date_and_day`
(lines 135-167).  The call to `datetime.strptime(date, "%m/%d/%Y")`
(line 148) is abstracted by the `date_parses` parameter (true iff
`strptime` does not raise). -/
def validate_date_and_day (date_parses : String → Bool)
    (order_date order_day : String) : OrderRequestCheck :=
  if order_date = "" ∨ py_strip order_date = "" then OrderRequestCheck.emptyDate
  else if order_day = "" then OrderRequestCheck.emptyDay
  else if ¬ date_parses (py_strip order_date) then OrderRequestCheck.badDateFormat
  else
    match py_to_int order_day with
    | none => OrderRequestCheck.invalidDayTag
    | some day_num =>
      if day_num = 1 ∨ day_num = 2 ∨ day_num = 4 ∨ day_num = 5 ∨ day_num = 6 then
        OrderRequestCheck.proceed day_num
      else OrderRequestCheck.invalidDayTag

/-- C7: order creation through the app entry point accepts an optional
day tag and rejects any day tag outside `{1, 2, 4, 5, 6}` with the
invalid-day error before any order or quantity computation happens
(rejection returns instead of reaching `proceed`); a day tag in that set
is accepted and order creation proceeds with it. -/
theorem C7_day_tag_validation (date_parses : String → Bool)
    (order_date order_day : String) (d : Int)
    (hdate : py_strip order_date ≠ "")
    (hfmt : date_parses (py_strip order_date) = true)
    (hday0 : order_day ≠ "")
    (hday : py_to_int order_day = some d) :
    (d ∉ ([1, 2, 4, 5, 6] : List Int) →
      validate_date_and_day date_parses order_date order_day =
        OrderRequestCheck.invalidDayTag) ∧
    (d ∈ ([1, 2, 4, 5, 6] : List Int) →
      validate_date_and_day date_parses order_date order_day =
        OrderRequestCheck.proceed d) := by
  have hd0 : ¬ (order_date = "" ∨ py_strip order_date = "") := by
    rintro (h | h)
    · exact hdate (by rw [h]; rfl)
    · exact hdate h
  unfold validate_date_and_day
  rw [if_neg hd0, if_neg hday0, if_neg (by rw [hfmt]; simp), hday]
  constructor
  · intro hnot
    have hn : ¬ (d = 1 ∨ d = 2 ∨ d = 4 ∨ d = 5 ∨ d = 6) := by
      intro hc
      apply hnot
      simp only [List.mem_cons, List.mem_singleton]
      tauto
    simp only [if_neg hn]
  · intro hmem
    have hy : d = 1 ∨ d = 2 ∨ d = 4 ∨ d = 5 ∨ d = 6 := by
      simpa using hmem
    simp only [if_pos hy]

/-- C7 witness: with a well-formed date, day tag 3 (outside the valid
set) is rejected with the invalid-day error, while day tag 5 is
accepted. -/
theorem C7_witness :
    validate_date_and_day (fun _ => true) "12/25/2024" "3" =
      OrderRequestCheck.invalidDayTag ∧
    validate_date_and_day (fun _ => true) "12/25/2024" "5" =
      OrderRequestCheck.proceed 5 := by
  constructor
  · exact (C7_day_tag_validation (fun _ => true) "12/25/2024" "3" 3
      (by decide) rfl (by decide) (by decide)).1 (by decide)
  · exact (C7_day_tag_validation (fun _ => true) "12/25/2024" "5" 5
      (by decide) rfl (by decide) (by decide)).2 (by decide)

/-- C8 counterexample: called with product id 999, absent from the
catalog, the quantity calculator returns the plain quantity pair
`(0, 0)` (`orders.py` line 177) — the very same value it returns for the
known product 101 with zero units ordered — so an unknown product id
yields a silently returned quantity, not a distinguishable
UnknownProduct error. -/
theorem C8_counterexample :
    find_product c2_sys 999 = none ∧
    calculate_order_quantities c2_sys 999 50 = (0, 0) ∧
    find_product c2_sys 101 = some c2_product ∧
    calculate_order_quantities c2_sys 101 0 = (0, 0) := by
  exact ⟨rfl, rfl, rfl, rfl⟩

/-- C8 (amended): for a product id not in the catalog,
`calculate_order_quantities` returns the in-band sentinel `(0, 0)` —
indistinguishable from a legitimate zero-quantity result — rather than a
distinct UnknownProduct error; the unknown product is instead detected
by `create_order`, whose catalog-membership check skips such a line. -/
theorem C8_unknown_product_sentinel (sys : OrderSystem) (pn units : Nat)
    (req : ItemRequest)
    (h : find_product sys pn = none) (hreq : req.product_number = pn) :
    calculate_order_quantities sys pn units = (0, 0) ∧
    process_item sys req = none := by
  constructor
  · unfold calculate_order_quantities
    rw [h]
  · unfold process_item
    rw [hreq, h]

/-- C8 witness: the amended claim at the concrete catalog `c2_sys`
(product 101 only) and the unknown product id 999. -/
theorem C8_witness :
    calculate_order_quantities c2_sys 999 50 = (0, 0) ∧
    process_item c2_sys { product_number := 999, units_ordered := 50 } = none := by
  exact C8_unknown_product_sentinel c2_sys 999 50
    { product_number := 999, units_ordered := 50 } rfl rfl

end VRelay
